import Mathlib

/-!
# Catalogue service: logging decorator and request middleware

A shallow embedding of `logging.go` (the logging decorator of the catalogue
`Service`) and of `cmd/cataloguesvc/main.go` (the request middleware and its
`responseWriter` wrapper), followed by theorems about them.

Go code with effects is embedded by explicit state passing over a `World`
holding the monotonic clock, the lines written through klog, the observations
recorded in Prometheus histograms and the set of registered collectors. A
call either returns a value or panics (`Outcome`); collaborators that are not
part of these two files (the inner `Service`, the mux router, the underlying
`http.ResponseWriter`, `net.SplitHostPort`) are parameters.
-/

namespace Catalogue

universe u

/-! ## Go values -/

/-- Go slices, read as immutable sequences (aliasing of backing arrays is not modelled). -/
abbrev Slice (α : Type) := List α

/-- One Go `byte`. -/
abbrev Byte := Fin 256

/-- Wrap-around of Go `int` arithmetic (64-bit two's complement). -/
def wrapInt (x : Int) : Int :=
  (x + 9223372036854775808) % 18446744073709551616 - 9223372036854775808

/-- A non-nil Go `error` value; the `error` interface is `Option GoError`, `none` being nil. -/
structure GoError where
  msg : String
deriving DecidableEq

/-- The value carried by a Go panic. -/
structure PanicValue where
  msg : String
deriving DecidableEq

/-- How a Go call ends: it returns a value, or it panics. -/
inductive Outcome (α : Type u) where
  | ret (a : α)
  | panic (p : PanicValue)
deriving DecidableEq

/-! ## klog, Prometheus and the clock -/

/-- klog severities used by the two files. -/
inductive Severity where
  | info
  | warning
  | error
deriving DecidableEq

/-- One argument handed to a klog call. A `time.Duration` is kept in nanoseconds. -/
inductive LogArg where
  | str (s : String)
  | int (n : Int)
  | err (e : Option GoError)
  | dur (ns : Int)
deriving DecidableEq

/-- One klog line: its severity, the format string (`none` for the `...ln` functions)
and the arguments in call order. Rendering to text is klog's business. -/
structure LogEntry where
  severity : Severity
  format : Option String
  args : Slice LogArg
deriving DecidableEq

/-- One `Observe` on a child of a histogram vector: the vector's name, the label
name/value pairs selecting the child, and the observed duration in nanoseconds
(`Observe` itself receives `latency.Seconds()`, a float64 rendering of it). -/
structure Observation where
  metric : String
  labels : Slice (String × String)
  latency : Int
deriving DecidableEq

/-- The state Go code runs against. `clock` is a logical monotonic clock in
nanoseconds: every reading advances it by one unit, and collaborators may
advance it further. `ext` is whatever state the collaborators own (the store,
the connection, ...). -/
structure World (ε : Type) where
  clock : Int
  klog : Slice LogEntry
  observations : Slice Observation
  registry : Slice String
  ext : ε
deriving DecidableEq

/-- An effectful Go call producing an `α`. -/
abbrev Go (ε : Type) (α : Type u) := World ε → Outcome α × World ε

/-- Reading of `time.Now()`: the current clock value; the clock moves on. -/
def time.Now {ε : Type} (w : World ε) : Int × World ε :=
  (w.clock, { w with clock := w.clock + 1 })

/-- Reading of `time.Since(begin)`, which is `time.Now().Sub(begin)`. -/
def time.Since {ε : Type} (begin : Int) (w : World ε) : Int × World ε :=
  let (now, w) := time.Now w
  (now - begin, w)

/-- Method `Duration.Milliseconds`: integer division of the nanosecond count, truncating. -/
def Duration.Milliseconds (d : Int) : Int :=
  Int.tdiv d 1000000

/-- Function `strings.Join`: the elements, with `sep` between neighbours. -/
def strings.Join (elems : Slice String) (sep : String) : String :=
  sep.intercalate elems

/-- Function `strconv.Itoa`: the decimal rendering of an `int`. -/
def strconv.Itoa (i : Int) : String :=
  toString i

/-- Function `klog.Infoln(args...)`: one line at severity info. -/
def klog.Infoln {ε : Type} (args : Slice LogArg) (w : World ε) : World ε :=
  { w with klog := w.klog ++ [{ severity := Severity.info, format := none, args := args }] }

/-- Function `klog.Infof(format, args...)`: one formatted line at severity info. -/
def klog.Infof {ε : Type} (format : String) (args : Slice LogArg) (w : World ε) : World ε :=
  { w with klog := w.klog ++ [{ severity := Severity.info, format := some format, args := args }] }

/-- Function `klog.Warningf(format, args...)`: one formatted line at severity warning. -/
def klog.Warningf {ε : Type} (format : String) (args : Slice LogArg) (w : World ε) : World ε :=
  { w with klog := w.klog ++ [{ severity := Severity.warning, format := some format, args := args }] }

/-- Function `klog.Errorf(format, args...)`: one formatted line at severity error. -/
def klog.Errorf {ε : Type} (format : String) (args : Slice LogArg) (w : World ε) : World ε :=
  { w with klog := w.klog ++ [{ severity := Severity.error, format := some format, args := args }] }

/-- A Prometheus histogram vector: its name, help text and label names
(the bucket boundaries, floats, are left out). -/
structure HistogramVec where
  Name : String
  Help : String
  labelNames : Slice String
deriving DecidableEq

/-- Function `prometheus.MustRegister(c)`: panics when a collector of that name is registered already. -/
def prometheus.MustRegister {ε : Type} (c : HistogramVec) : Go ε Unit := fun w =>
  if c.Name ∈ w.registry then
    (Outcome.panic { msg := "duplicate metrics collector registration attempted" }, w)
  else
    (Outcome.ret (), { w with registry := w.registry ++ [c.Name] })

/-- The call chain `h.WithLabelValues(lvs...).Observe(latency.Seconds())`: `WithLabelValues` panics
unless it gets one value per label name. -/
def HistogramVec.WithLabelValuesObserve {ε : Type} (h : HistogramVec) (lvs : Slice String)
    (latency : Int) : Go ε Unit := fun w =>
  if lvs.length = h.labelNames.length then
    (Outcome.ret (), { w with observations := w.observations ++
      [{ metric := h.Name, labels := h.labelNames.zip lvs, latency := latency }] })
  else
    (Outcome.panic { msg := "inconsistent label cardinality" }, w)

/-- Go's rule for `return call(...)` in a function with named results and one
deferred closure that cannot itself panic: on a normal return the results are
assigned and the closure then runs seeing them; when the call panics the
closure runs seeing the results' zero values and the panic keeps unwinding. -/
def returnWithDeferred {ε α : Type} (zero : α) (deferred : α → World ε → World ε)
    (call : Go ε α) : Go ε α := fun w =>
  match call w with
  | (Outcome.ret a, w1) => (Outcome.ret a, deferred a w1)
  | (Outcome.panic p, w1) => (Outcome.panic p, deferred zero w1)

/-! ## The catalogue service interface (`logging.go`) -/

/-- Modelled from the spec: the `Sock` type is declared outside the two files.
An item has an identifier, a name, a description, a numeric price, image
references, tags and a count in stock; the decorator reads only `ID`. -/
structure Sock where
  ID : String
  Name : String
  Description : String
  ImageURL : Slice String
  Price : Int
  Count : Int
  Tags : Slice String
deriving DecidableEq

/-- Modelled from the spec: the `Health` type is declared outside the two files.
A health entry has a service name, a status string and the time of the check. -/
structure Health where
  Service : String
  Status : String
  Time : String
deriving DecidableEq

/-- Modelled from the spec: the `Service` interface is declared outside the two files.
Its five operations are those of the catalogue service contract, with the Go
signatures of the methods by which `loggingMiddleware` implements them. An
implementation is any five Go calls of these types. -/
structure Service (ε : Type) where
  List : Slice String → String → Int → Int → Go ε (Slice Sock × Option GoError)
  Count : Slice String → Go ε (Int × Option GoError)
  Get : String → Go ε (Sock × Option GoError)
  Tags : Go ε (Slice String × Option GoError)
  Health : Go ε (Slice Health)

/-- Modelled from the spec: the type `Middleware` is declared outside the two files.
A middleware takes a service and returns a service, as `LoggingMiddleware` uses it. -/
abbrev Middleware (ε : Type) := Service ε → Service ε

/-- The struct `loggingMiddleware`. -/
structure loggingMiddleware (ε : Type) where
  next : Service ε

/-- The zero value of `Sock`, which a named result of that type holds until assigned. -/
def Sock.zero : Sock :=
  { ID := "", Name := "", Description := "", ImageURL := [], Price := 0, Count := 0, Tags := [] }

/-- The arguments of the `klog.Infoln` call in `List` (lines 24-33), given the
values the named results hold and the reading of `time.Since(begin)`. -/
def loggingMiddleware.ListArgs (tags : Slice String) (order : String) (pageNum pageSize : Int)
    (results : Slice Sock × Option GoError) (took : Int) : Slice LogArg :=
  [LogArg.str "method", LogArg.str "List",
   LogArg.str "tags", LogArg.str (strings.Join tags ", "),
   LogArg.str "order", LogArg.str order,
   LogArg.str "pageNum", LogArg.int pageNum,
   LogArg.str "pageSize", LogArg.int pageSize,
   LogArg.str "result", LogArg.int results.1.length,
   LogArg.str "err", LogArg.err results.2,
   LogArg.str "took", LogArg.dur took]

/-- Method `loggingMiddleware.List` (lines 22-36). -/
def loggingMiddleware.List {ε : Type} (mw : loggingMiddleware ε) (tags : Slice String)
    (order : String) (pageNum pageSize : Int) : Go ε (Slice Sock × Option GoError) := fun w =>
  let (begin, w) := time.Now w
  returnWithDeferred ([], none)
    (fun results w =>
      let (took, w) := time.Since begin w
      klog.Infoln (loggingMiddleware.ListArgs tags order pageNum pageSize results took) w)
    (mw.next.List tags order pageNum pageSize) w

/-- The arguments of the `klog.Infoln` call in `Count` (lines 40-46). -/
def loggingMiddleware.CountArgs (tags : Slice String) (results : Int × Option GoError)
    (took : Int) : Slice LogArg :=
  [LogArg.str "method", LogArg.str "Count",
   LogArg.str "tags", LogArg.str (strings.Join tags ", "),
   LogArg.str "result", LogArg.int results.1,
   LogArg.str "err", LogArg.err results.2,
   LogArg.str "took", LogArg.dur took]

/-- Method `loggingMiddleware.Count` (lines 38-49). -/
def loggingMiddleware.Count {ε : Type} (mw : loggingMiddleware ε) (tags : Slice String) :
    Go ε (Int × Option GoError) := fun w =>
  let (begin, w) := time.Now w
  returnWithDeferred (0, none)
    (fun results w =>
      let (took, w) := time.Since begin w
      klog.Infoln (loggingMiddleware.CountArgs tags results took) w)
    (mw.next.Count tags) w

/-- The arguments of the `klog.Infoln` call in `Get` (lines 53-59). -/
def loggingMiddleware.GetArgs (id : String) (results : Sock × Option GoError)
    (took : Int) : Slice LogArg :=
  [LogArg.str "method", LogArg.str "Get",
   LogArg.str "id", LogArg.str id,
   LogArg.str "sock", LogArg.str results.1.ID,
   LogArg.str "err", LogArg.err results.2,
   LogArg.str "took", LogArg.dur took]

/-- Method `loggingMiddleware.Get` (lines 51-62). -/
def loggingMiddleware.Get {ε : Type} (mw : loggingMiddleware ε) (id : String) :
    Go ε (Sock × Option GoError) := fun w =>
  let (begin, w) := time.Now w
  returnWithDeferred (Sock.zero, none)
    (fun results w =>
      let (took, w) := time.Since begin w
      klog.Infoln (loggingMiddleware.GetArgs id results took) w)
    (mw.next.Get id) w

/-- The arguments of the `klog.Infoln` call in `Tags` (lines 66-71). -/
def loggingMiddleware.TagsArgs (results : Slice String × Option GoError)
    (took : Int) : Slice LogArg :=
  [LogArg.str "method", LogArg.str "Tags",
   LogArg.str "result", LogArg.int results.1.length,
   LogArg.str "err", LogArg.err results.2,
   LogArg.str "took", LogArg.dur took]

/-- Method `loggingMiddleware.Tags` (lines 64-74). -/
def loggingMiddleware.Tags {ε : Type} (mw : loggingMiddleware ε) :
    Go ε (Slice String × Option GoError) := fun w =>
  let (begin, w) := time.Now w
  returnWithDeferred ([], none)
    (fun results w =>
      let (took, w) := time.Since begin w
      klog.Infoln (loggingMiddleware.TagsArgs results took) w)
    mw.next.Tags w

/-- The arguments of the `klog.Infoln` call in `Health` (lines 78-82). -/
def loggingMiddleware.HealthArgs (health : Slice Health) (took : Int) : Slice LogArg :=
  [LogArg.str "method", LogArg.str "Health",
   LogArg.str "result", LogArg.int health.length,
   LogArg.str "took", LogArg.dur took]

/-- Method `loggingMiddleware.Health` (lines 76-85). -/
def loggingMiddleware.Health {ε : Type} (mw : loggingMiddleware ε) : Go ε (Slice Health) := fun w =>
  let (begin, w) := time.Now w
  returnWithDeferred []
    (fun health w =>
      let (took, w) := time.Since begin w
      klog.Infoln (loggingMiddleware.HealthArgs health took) w)
    mw.next.Health w

/-- A `loggingMiddleware` value seen through the `Service` interface. -/
def loggingMiddleware.asService {ε : Type} (mw : loggingMiddleware ε) : Service ε :=
  { List := mw.List, Count := mw.Count, Get := mw.Get, Tags := mw.Tags, Health := mw.Health }

/-- Function `LoggingMiddleware` (lines 10-16). -/
def LoggingMiddleware {ε : Type} (_ : Unit) : Middleware ε :=
  fun next => loggingMiddleware.asService { next := next }

/-- The decorator applied `k` times: `nest 0 s` is `s`, and each further layer wraps the previous one. -/
def nest {ε : Type} : Nat → Service ε → Service ε
  | 0, s => s
  | k + 1, s => LoggingMiddleware () (nest k s)

/-! ### Observing which inner methods are invoked -/

/-- One invocation of a `Service` method, with its arguments. -/
inductive Call where
  | List (tags : Slice String) (order : String) (pageNum pageSize : Int)
  | Count (tags : Slice String)
  | Get (id : String)
  | Tags
  | Health
deriving DecidableEq

/-- Forget the trace kept in front of the collaborators' state. -/
def World.hideTrace {τ ε : Type} (w : World (τ × ε)) : World ε :=
  { clock := w.clock, klog := w.klog, observations := w.observations, registry := w.registry,
    ext := w.ext.2 }

/-- Put a trace in front of the collaborators' state. -/
def World.withTrace {τ ε : Type} (t : τ) (w : World ε) : World (τ × ε) :=
  { clock := w.clock, klog := w.klog, observations := w.observations, registry := w.registry,
    ext := (t, w.ext) }

/-- Run a call that knows nothing of the trace, after appending `c` to the trace. -/
def recorded {κ ε α : Type} (c : κ) (call : Go ε α) : Go (Slice κ × ε) α := fun w =>
  let (out, w1) := call w.hideTrace
  (out, w1.withTrace (w.ext.1 ++ [c]))

/-- A test double: it behaves as `inner`, and every invocation of one of its
methods is appended to a trace that `inner` cannot reach. -/
def recording {ε : Type} (inner : Service ε) : Service (Slice Call × ε) :=
  { List := fun tags order pageNum pageSize =>
      recorded (Call.List tags order pageNum pageSize) (inner.List tags order pageNum pageSize)
    Count := fun tags => recorded (Call.Count tags) (inner.Count tags)
    Get := fun id => recorded (Call.Get id) (inner.Get id)
    Tags := recorded Call.Tags inner.Tags
    Health := recorded Call.Health inner.Health }

/-! ## The request middleware (`cmd/cataloguesvc/main.go`) -/

/-- The fields of `http.Request` that `ServeHTTP` reads. -/
structure Request where
  Method : String
  RequestURI : String
  Proto : String
  RemoteAddr : String
deriving DecidableEq

/-- The path of a request target in origin form: what precedes the first `?`.
`ServeHTTP` never computes it (it compares `RequestURI`); it serves to speak
of the path of a request. -/
def Request.path (r : Request) : String :=
  String.mk (r.RequestURI.toList.takeWhile (fun c => c != '?'))

/-- The header map an `http.ResponseWriter` hands out. -/
abbrev Header := Slice (String × Slice String)

/-- The `http.ResponseWriter` interface over a writer whose state has type `ω`.
Its methods are taken to return; a panic raised under one of them shows as a
panic of the handler that made the call. -/
structure ResponseWriter (ω : Type) where
  Header : ω → Header
  Write : Slice Byte → ω → (Int × Option GoError) × ω
  WriteHeader : Int → ω → ω

/-- The struct `responseWriter` (lines 146-150); `w` is the state of the wrapped writer. -/
structure responseWriter (ω : Type) where
  w : ω
  status : Int
  size : Int
deriving DecidableEq

/-- Method `responseWriter.Header` (lines 152-154). -/
def responseWriter.Header {ω : Type} (under : ResponseWriter ω) (w : responseWriter ω) : Header :=
  under.Header w.w

/-- Method `responseWriter.Write` (lines 156-160). -/
def responseWriter.Write {ω : Type} (under : ResponseWriter ω) (b : Slice Byte)
    (w : responseWriter ω) : (Int × Option GoError) × responseWriter ω :=
  let ((n, err), w1) := under.Write b w.w
  ((n, err), { w with w := w1, size := wrapInt (w.size + n) })

/-- Method `responseWriter.WriteHeader` (lines 162-165). -/
def responseWriter.WriteHeader {ω : Type} (under : ResponseWriter ω) (statusCode : Int)
    (w : responseWriter ω) : responseWriter ω :=
  { w with w := under.WriteHeader statusCode w.w, status := statusCode }

/-- A `responseWriter` seen through the `http.ResponseWriter` interface. -/
def responseWriter.asResponseWriter {ω : Type} (under : ResponseWriter ω) :
    ResponseWriter (responseWriter ω) :=
  { Header := responseWriter.Header under
    Write := responseWriter.Write under
    WriteHeader := responseWriter.WriteHeader under }

/-- Constant `http.StatusOK`. -/
def StatusOK : Int := 200

/-- Constant `http.StatusBadRequest`. -/
def StatusBadRequest : Int := 400

/-- Constant `http.StatusInternalServerError`. -/
def StatusInternalServerError : Int := 500

/-- One call a handler makes on the response writer it was given. -/
inductive WriterCall where
  | Write (b : Slice Byte)
  | WriteHeader (statusCode : Int)
deriving DecidableEq

/-- Make the calls in order on a writer; returns what each `Write` returned
(`none` stands for a `WriteHeader`, which returns nothing) and the final state. -/
def runCalls {ω : Type} (rw : ResponseWriter ω) :
    Slice WriterCall → ω → Slice (Option (Int × Option GoError)) × ω
  | [], s => ([], s)
  | WriterCall.Write b :: rest, s =>
    let (res, s1) := rw.Write b s
    let (ress, s2) := runCalls rw rest s1
    (some res :: ress, s2)
  | WriterCall.WriteHeader code :: rest, s =>
    let (ress, s2) := runCalls rw rest (rw.WriteHeader code s)
    (none :: ress, s2)

/-- The byte counts reported by the `Write` calls, added up as integers. -/
def reportedBytes : Slice (Option (Int × Option GoError)) → Int
  | [] => 0
  | some (n, _) :: rest => n + reportedBytes rest
  | none :: rest => reportedBytes rest

/-- The status codes of the `WriteHeader` calls of a sequence, in call order. -/
def headerCodes : Slice WriterCall → Slice Int
  | [] => []
  | WriterCall.Write _ :: rest => headerCodes rest
  | WriterCall.WriteHeader code :: rest => code :: headerCodes rest

/-- A `mux.Route`: what its `GetPathTemplate` returns. -/
structure Route where
  GetPathTemplate : String × Option GoError
deriving DecidableEq

/-- The panic Go raises when a nil pointer is dereferenced. -/
def nilPointerDereference : PanicValue :=
  { msg := "runtime error: invalid memory address or nil pointer dereference" }

/-- The `mux.Router` as `ServeHTTP` uses it. Its own `ServeHTTP` serves a request
against any response writer, reaching it through the interface only. `Match`
yields its boolean result together with the `Route` field it leaves in the
`RouteMatch` handed to it, a pointer that may be nil (`none`): a router with a
`NotFoundHandler` or a `MethodNotAllowedHandler` reports a match without a
route for a request that no route serves. -/
structure Router (ε : Type) where
  ServeHTTP : (ω : Type) → ResponseWriter ω → ω → Request → World ε → Outcome Unit × ω × World ε
  Match : Request → Bool × Option Route

/-- The part of package `net` that `ServeHTTP` calls. -/
structure Net where
  SplitHostPort : String → String × String × Option GoError

/-- The struct `requestMiddleware` (lines 93-96). -/
structure requestMiddleware (ε : Type) where
  router : Router ε
  histogram : HistogramVec

/-- Function `newRequestMiddleware` (lines 98-109). -/
def newRequestMiddleware {ε : Type} (r : Router ε) : Go ε (requestMiddleware ε) := fun w =>
  let m : requestMiddleware ε :=
    { router := r
      histogram :=
        { Name := "http_request_duration_seconds"
          Help := "Time (in seconds) spent serving HTTP requests."
          labelNames := ["method", "path", "status_code"] } }
  match prometheus.MustRegister m.histogram w with
  | (Outcome.panic p, w) => (Outcome.panic p, w)
  | (Outcome.ret (), w) => (Outcome.ret m, w)

/-- Method `requestMiddleware.ServeHTTP` (lines 111-144). -/
def requestMiddleware.ServeHTTP {ε ω : Type} (net : Net) (m : requestMiddleware ε)
    (under : ResponseWriter ω) (w : ω) (r : Request) (world : World ε) :
    Outcome Unit × ω × World ε :=
  if r.RequestURI = "/healthz" then
    m.router.ServeHTTP ω under w r world
  else
    let (t, world) := time.Now world
    let rw : responseWriter ω := { w := w, status := StatusOK, size := 0 }
    match m.router.ServeHTTP (responseWriter ω) (responseWriter.asResponseWriter under) rw r world with
    | (Outcome.panic p, rw, world) => (Outcome.panic p, rw.w, world)
    | (Outcome.ret (), rw, world) =>
      let (latency, world) := time.Since t world
      let (routeExists, route) := m.router.Match r
      let handler : Outcome String :=
        if routeExists then
          match route with
          | some route => Outcome.ret route.GetPathTemplate.1
          | none => Outcome.panic nilPointerDereference
        else
          Outcome.ret ""
      match handler with
      | Outcome.panic p => (Outcome.panic p, rw.w, world)
      | Outcome.ret handler =>
        let host :=
          match net.SplitHostPort r.RemoteAddr with
          | (host, _, none) => host
          | (_, _, some _) => r.RemoteAddr
        match m.histogram.WithLabelValuesObserve [r.Method, handler, strconv.Itoa rw.status]
            latency world with
        | (Outcome.panic p, world) => (Outcome.panic p, rw.w, world)
        | (Outcome.ret (), world) =>
          let f :=
            if rw.status ≥ StatusInternalServerError then klog.Errorf
            else if rw.status ≥ StatusBadRequest then klog.Warningf
            else klog.Infof
          (Outcome.ret (), rw.w,
            f "%s %s %s %s %d %d %dms" [
              LogArg.str host, LogArg.str r.Method, LogArg.str r.RequestURI, LogArg.str r.Proto,
              LogArg.int rw.status, LogArg.int rw.size,
              LogArg.int (Duration.Milliseconds latency)] world)

/-- A test double for the router: it behaves as `router`, and every request handed
to its `ServeHTTP` is appended to a trace that `router` cannot reach. -/
def recordingRouter {ε : Type} (router : Router ε) : Router (Slice Request × ε) :=
  { ServeHTTP := fun ω under w r world =>
      let (out, w1, world1) := router.ServeHTTP ω under w r world.hideTrace
      (out, w1, world1.withTrace (world.ext.1 ++ [r]))
    Match := router.Match }

/-! ## Auxiliary definitions used by the theorems -/

/-- The world `n` clock units later. -/
def World.advance {ε : Type} (n : Nat) (w : World ε) : World ε :=
  { w with clock := w.clock + n }

/-- The shape shared by the five decorator methods: read the clock, make the call
under a deferred `klog.Infoln` of `args results took`. -/
def logged {ε α : Type} (zero : α) (args : α → Int → Slice LogArg) (call : Go ε α) : Go ε α :=
  fun w =>
    let (begin, w) := time.Now w
    returnWithDeferred zero
      (fun results w =>
        let (took, w) := time.Since begin w
        klog.Infoln (args results took) w)
      call w

/-- The values the named results of a function hold when its deferred call runs:
the returned values after a return, the zero values during a panic. -/
def Outcome.namedResults {α : Type} (zero : α) : Outcome α → α
  | Outcome.ret a => a
  | Outcome.panic _ => zero

/-- The info line `klog.Infoln` writes for the given arguments. -/
def infoLine (args : Slice LogArg) : LogEntry :=
  { severity := Severity.info, format := none, args := args }

/-! ### Concrete collaborators on which the theorems are exercised -/

/-- A sock of the sample store. -/
def sampleSock : Sock :=
  { ID := "1", Name := "Holy", Description := "Socks fit for a Messiah", ImageURL := ["/img/holy.jpg"],
    Price := 99, Count := 1, Tags := ["red", "warm"] }

/-- A small service over that store: `List` fails on a page number below one and
takes a few clock units, `Get` panics on the identifier `"boom"`. -/
def sampleService : Service Unit :=
  { List := fun _ _ pageNum _ w =>
      if pageNum < 1 then
        (Outcome.ret ([], some { msg := "invalid page" }), { w with clock := w.clock + 5 })
      else
        (Outcome.ret ([sampleSock], none), { w with clock := w.clock + 7 })
    Count := fun _ w => (Outcome.ret (1, none), { w with clock := w.clock + 3 })
    Get := fun id w =>
      if id = "boom" then (Outcome.panic { msg := "store gone" }, { w with clock := w.clock + 2 })
      else if id = "1" then (Outcome.ret (sampleSock, none), { w with clock := w.clock + 2 })
      else (Outcome.ret (Sock.zero, some { msg := "not found" }), { w with clock := w.clock + 2 })
    Tags := fun w => (Outcome.ret (["red", "warm"], none), { w with clock := w.clock + 4 })
    Health := fun w =>
      (Outcome.ret [{ Service := "catalogue", Status := "OK", Time := "now" }],
        { w with clock := w.clock + 1 }) }

/-- A world at clock 100 with nothing logged, observed or registered. -/
def sampleWorld : World Unit :=
  { clock := 100, klog := [], observations := [], registry := [], ext := () }

/-- An in-memory response writer: the bytes written so far, the last status set, and how
many more bytes it accepts before `Write` fails with a short write. -/
structure BufferWriter where
  body : Slice Byte
  status : Int
  room : Nat
deriving DecidableEq

/-- The `http.ResponseWriter` methods of `BufferWriter`. -/
def BufferWriter.methods : ResponseWriter BufferWriter :=
  { Header := fun _ => []
    Write := fun b s =>
      if b.length ≤ s.room then
        ((b.length, none), { s with body := s.body ++ b, room := s.room - b.length })
      else
        ((s.room, some { msg := "short write" }), { s with body := s.body ++ b.take s.room, room := 0 })
    WriteHeader := fun code s => { s with status := code } }

/-- A small router: `/boom` panics; `/tags` and the two health paths are routes answered
with 200 and two bytes; `/catalogue/99` is a route answered with 404; anything else matches no
route and is answered with 404. Serving takes two milliseconds. -/
def sampleRouter : Router Unit :=
  { ServeHTTP := fun _ rw s r world =>
      if r.RequestURI = "/boom" then
        (Outcome.panic { msg := "handler failed" }, s, world)
      else if r.path = "/tags" ∨ r.path = "/health" ∨ r.path = "/healthz" then
        let s1 := rw.WriteHeader 200 s
        let (_, s2) := rw.Write [91, 93] s1
        (Outcome.ret (), s2, { world with clock := world.clock + 2000000 })
      else
        let s1 := rw.WriteHeader 404 s
        let (_, s2) := rw.Write [63] s1
        (Outcome.ret (), s2, { world with clock := world.clock + 2000000 })
    Match := fun r =>
      if r.path = "/tags" then (true, some { GetPathTemplate := ("/tags", none) })
      else if r.path = "/health" then (true, some { GetPathTemplate := ("/health", none) })
      else if r.path = "/healthz" then (true, some { GetPathTemplate := ("/healthz", none) })
      else if r.path = "/catalogue/99" then
        (true, some { GetPathTemplate := ("/catalogue/{id}", none) })
      else (false, none) }

/-- The sample router with a `NotFoundHandler` set: it serves as before, and `Match` reports
a match, without a route, for a request that none of its routes serves. -/
def sampleRouterWithNotFoundHandler : Router Unit :=
  { ServeHTTP := sampleRouter.ServeHTTP
    Match := fun r =>
      match sampleRouter.Match r with
      | (true, route) => (true, route)
      | (false, _) => (true, none) }

/-- A `SplitHostPort` that splits at the last colon and fails when there is none. -/
def sampleNet : Net :=
  { SplitHostPort := fun hostport =>
      let rev := hostport.toList.reverse
      if ':' ∈ rev then
        (String.mk (rev.dropWhile (fun c => c != ':')).tail.reverse,
          String.mk (rev.takeWhile (fun c => c != ':')).reverse, none)
      else
        ("", "", some { msg := "missing port in address" }) }

/-- The middleware `newRequestMiddleware sampleRouter` returns. -/
def sampleMiddleware : requestMiddleware Unit :=
  { router := sampleRouter
    histogram :=
      { Name := "http_request_duration_seconds"
        Help := "Time (in seconds) spent serving HTTP requests."
        labelNames := ["method", "path", "status_code"] } }

/-- A GET request for the given request target. -/
def sampleRequest (uri : String) : Request :=
  { Method := "GET", RequestURI := uri, Proto := "HTTP/1.1", RemoteAddr := "10.0.0.7:41000" }

/-- An empty in-memory writer with room for a thousand bytes. -/
def sampleWriter : BufferWriter :=
  { body := [], status := 0, room := 1000 }

/-! ## Lemmas on the shared shape of the decorator methods -/

/-- One layer of the shared shape, unfolded: the call runs one clock unit after entry, and
the line is written on the way out, on a return as well as on a panic. -/
theorem logged_apply {ε α : Type} (zero : α) (args : α → Int → Slice LogArg) (call : Go ε α)
    (w : World ε) :
    logged zero args call w =
      match call (w.advance 1) with
      | (Outcome.ret a, w1) =>
        (Outcome.ret a, { w1 with clock := w1.clock + 1,
                                  klog := w1.klog ++ [infoLine (args a (w1.clock - w.clock))] })
      | (Outcome.panic p, w1) =>
        (Outcome.panic p, { w1 with clock := w1.clock + 1,
                                    klog := w1.klog ++ [infoLine (args zero (w1.clock - w.clock))] }) := by
  unfold logged returnWithDeferred
  simp only [time.Now, time.Since, klog.Infoln, World.advance, infoLine, Nat.cast_one]

/-- One layer around a call that returns. -/
theorem logged_ret {ε α : Type} (zero : α) (args : α → Int → Slice LogArg) (call : Go ε α)
    (w w1 : World ε) (a : α) (h : call (w.advance 1) = (Outcome.ret a, w1)) :
    logged zero args call w =
      (Outcome.ret a, { w1 with clock := w1.clock + 1,
                                klog := w1.klog ++ [infoLine (args a (w1.clock - w.clock))] }) := by
  rw [logged_apply, h]

/-- One layer around a call that panics. -/
theorem logged_panic {ε α : Type} (zero : α) (args : α → Int → Slice LogArg) (call : Go ε α)
    (w w1 : World ε) (p : PanicValue) (h : call (w.advance 1) = (Outcome.panic p, w1)) :
    logged zero args call w =
      (Outcome.panic p, { w1 with clock := w1.clock + 1,
                                  klog := w1.klog ++ [infoLine (args zero (w1.clock - w.clock))] }) := by
  rw [logged_apply, h]

/-- One layer ends as the call it wraps. -/
theorem logged_outcome {ε α : Type} (zero : α) (args : α → Int → Slice LogArg) (call : Go ε α)
    (w : World ε) : (logged zero args call w).1 = (call (w.advance 1)).1 := by
  rw [logged_apply]
  split <;> rename_i h <;> simp [h]

/-- One layer adds one line after the output of the call it wraps. -/
theorem logged_klog {ε α : Type} (zero : α) (args : α → Int → Slice LogArg) (call : Go ε α)
    (w : World ε) :
    ∃ line, (logged zero args call w).2.klog = (call (w.advance 1)).2.klog ++ [line] := by
  rw [logged_apply]
  split <;> rename_i h <;> simp [h]

/-- The world after one clock reading is the world one unit later. -/
theorem advance_one_eq {ε : Type} (w : World ε) : w.advance 1 = (time.Now w).2 := by
  simp [World.advance, time.Now]

/-- Advancing by one and then by `k` is advancing by `k + 1`. -/
theorem advance_advance {ε : Type} (w : World ε) (k : Nat) :
    (w.advance 1).advance k = w.advance (k + 1) := by
  simp only [World.advance, Nat.cast_one, Nat.cast_add]
  congr 1
  omega

/-- One layer around a call, whatever its outcome. -/
theorem logged_named {ε α : Type} (zero : α) (args : α → Int → Slice LogArg) (call : Go ε α)
    (w w1 : World ε) (outcome : Outcome α) (h : call (w.advance 1) = (outcome, w1)) :
    logged zero args call w =
      (outcome, { w1 with
        clock := w1.clock + 1,
        klog := w1.klog ++ [infoLine (args (outcome.namedResults zero) (w1.clock - w.clock))] }) := by
  rw [logged_apply, h]
  cases outcome <;> rfl

/-- The shared shape applied `k` times around a call, whatever its outcome: `k` lines follow the
call's output, the layer `i` from the inside having started `k - 1 - i` units after the
outermost and ended `i` units after the call came back. -/
theorem logged_iterate {ε α : Type} (zero : α) (args : α → Int → Slice LogArg)
    (call : Go ε α) : ∀ (k : Nat) (w w1 : World ε) (outcome : Outcome α),
    call (w.advance k) = (outcome, w1) →
    ((logged zero args)^[k] call) w =
      (outcome,
        { w1 with clock := w1.clock + k,
                  klog := w1.klog ++ (List.range k).map
                    (fun (i : Nat) => infoLine (args (outcome.namedResults zero)
                      (w1.clock - w.clock - k + 1 + 2 * (i : Int)))) }) := by
  intro k
  induction k with
  | zero =>
    intro w w1 outcome h
    have h0 : w.advance 0 = w := by simp [World.advance]
    rw [h0] at h
    simp [h]
  | succ k ih =>
    intro w w1 outcome h
    rw [← advance_advance] at h
    rw [Function.iterate_succ_apply',
      logged_named zero args _ w _ outcome (ih (w.advance 1) w1 outcome h)]
    simp only [World.advance, Nat.cast_one, List.range_succ, List.map_append, List.map_cons,
      List.map_nil, List.append_assoc, Nat.cast_add]
    have hmap : List.map (fun (i : Nat) => infoLine (args (outcome.namedResults zero)
          (w1.clock - (w.clock + 1) - (k : Int) + 1 + 2 * (i : Int)))) (List.range k) =
        List.map (fun (i : Nat) => infoLine (args (outcome.namedResults zero)
          (w1.clock - w.clock - ((k : Int) + 1) + 1 + 2 * (i : Int)))) (List.range k) := by
      apply List.map_congr_left
      intro i _
      have e : w1.clock - (w.clock + 1) - (k : Int) + 1 + 2 * (i : Int) =
          w1.clock - w.clock - ((k : Int) + 1) + 1 + 2 * (i : Int) := by omega
      rw [e]
    have hlast : w1.clock + (k : Int) - w.clock =
        w1.clock - w.clock - ((k : Int) + 1) + 1 + 2 * (k : Int) := by omega
    have hclock : w1.clock + (k : Int) + 1 = w1.clock + ((k : Int) + 1) := by omega
    rw [hmap, hlast, hclock]

/-- The `k`-fold decorated `List` is the shared shape applied `k` times to the inner `List`. -/
theorem nest_List {ε : Type} (inner : Service ε) (tags : Slice String) (order : String)
    (pageNum pageSize : Int) (k : Nat) :
    (nest k inner).List tags order pageNum pageSize =
      (logged ([], none) (loggingMiddleware.ListArgs tags order pageNum pageSize))^[k]
        (inner.List tags order pageNum pageSize) := by
  induction k with
  | zero => rfl
  | succ k ih => rw [Function.iterate_succ_apply', ← ih]; rfl

/-- The `k`-fold decorated `Count` is the shared shape applied `k` times to the inner `Count`. -/
theorem nest_Count {ε : Type} (inner : Service ε) (tags : Slice String) (k : Nat) :
    (nest k inner).Count tags =
      (logged (0, none) (loggingMiddleware.CountArgs tags))^[k] (inner.Count tags) := by
  induction k with
  | zero => rfl
  | succ k ih => rw [Function.iterate_succ_apply', ← ih]; rfl

/-- The `k`-fold decorated `Get` is the shared shape applied `k` times to the inner `Get`. -/
theorem nest_Get {ε : Type} (inner : Service ε) (id : String) (k : Nat) :
    (nest k inner).Get id =
      (logged (Sock.zero, none) (loggingMiddleware.GetArgs id))^[k] (inner.Get id) := by
  induction k with
  | zero => rfl
  | succ k ih => rw [Function.iterate_succ_apply', ← ih]; rfl

/-- The `k`-fold decorated `Tags` is the shared shape applied `k` times to the inner `Tags`. -/
theorem nest_Tags {ε : Type} (inner : Service ε) (k : Nat) :
    (nest k inner).Tags = (logged ([], none) loggingMiddleware.TagsArgs)^[k] inner.Tags := by
  induction k with
  | zero => rfl
  | succ k ih => rw [Function.iterate_succ_apply', ← ih]; rfl

/-- The `k`-fold decorated `Health` is the shared shape applied `k` times to the inner `Health`. -/
theorem nest_Health {ε : Type} (inner : Service ε) (k : Nat) :
    (nest k inner).Health = (logged [] loggingMiddleware.HealthArgs)^[k] inner.Health := by
  induction k with
  | zero => rfl
  | succ k ih => rw [Function.iterate_succ_apply', ← ih]; rfl

/-- The decorated `List` has the shared shape. -/
theorem LoggingMiddleware_List {ε : Type} (inner : Service ε) (tags : Slice String)
    (order : String) (pageNum pageSize : Int) :
    (LoggingMiddleware () inner).List tags order pageNum pageSize =
      logged ([], none) (loggingMiddleware.ListArgs tags order pageNum pageSize)
        (inner.List tags order pageNum pageSize) := rfl

/-- The decorated `Count` has the shared shape. -/
theorem LoggingMiddleware_Count {ε : Type} (inner : Service ε) (tags : Slice String) :
    (LoggingMiddleware () inner).Count tags =
      logged (0, none) (loggingMiddleware.CountArgs tags) (inner.Count tags) := rfl

/-- The decorated `Get` has the shared shape. -/
theorem LoggingMiddleware_Get {ε : Type} (inner : Service ε) (id : String) :
    (LoggingMiddleware () inner).Get id =
      logged (Sock.zero, none) (loggingMiddleware.GetArgs id) (inner.Get id) := rfl

/-- The decorated `Tags` has the shared shape. -/
theorem LoggingMiddleware_Tags {ε : Type} (inner : Service ε) :
    (LoggingMiddleware () inner).Tags =
      logged ([], none) loggingMiddleware.TagsArgs inner.Tags := rfl

/-- The decorated `Health` has the shared shape. -/
theorem LoggingMiddleware_Health {ε : Type} (inner : Service ε) :
    (LoggingMiddleware () inner).Health =
      logged [] loggingMiddleware.HealthArgs inner.Health := rfl

/-! ## The logging decorator -/

/-- C1: every method of `LoggingMiddleware()(inner)` ends exactly as the inner
method does on the same arguments, in the world in which the decorator invokes
it (the one following the decorator's reading of the start time): the same
returned values and error, or the same panic. -/
theorem LoggingMiddleware_returns_inner_result {ε : Type} (inner : Service ε) (w : World ε) :
    (∀ (tags : Slice String) (order : String) (pageNum pageSize : Int),
      ((LoggingMiddleware () inner).List tags order pageNum pageSize w).1 =
        (inner.List tags order pageNum pageSize (time.Now w).2).1) ∧
    (∀ (tags : Slice String),
      ((LoggingMiddleware () inner).Count tags w).1 = (inner.Count tags (time.Now w).2).1) ∧
    (∀ (id : String),
      ((LoggingMiddleware () inner).Get id w).1 = (inner.Get id (time.Now w).2).1) ∧
    ((LoggingMiddleware () inner).Tags w).1 = (inner.Tags (time.Now w).2).1 ∧
    ((LoggingMiddleware () inner).Health w).1 = (inner.Health (time.Now w).2).1 := by
  refine ⟨?_, ?_, ?_, ?_, ?_⟩
  · intro tags order pageNum pageSize
    rw [LoggingMiddleware_List, logged_outcome, advance_one_eq]
  · intro tags
    rw [LoggingMiddleware_Count, logged_outcome, advance_one_eq]
  · intro id
    rw [LoggingMiddleware_Get, logged_outcome, advance_one_eq]
  · rw [LoggingMiddleware_Tags, logged_outcome, advance_one_eq]
  · rw [LoggingMiddleware_Health, logged_outcome, advance_one_eq]

/-- C2: one invocation of a decorator method adds exactly one line to the klog
output, after whatever the inner call logged, and ends as the inner call ended;
this holds for every outcome of the inner call, a returned non-nil error
included, which comes back unchanged. -/
theorem LoggingMiddleware_emits_exactly_one_line {ε : Type} (inner : Service ε) (w : World ε) :
    (∀ (tags : Slice String) (order : String) (pageNum pageSize : Int),
      ((LoggingMiddleware () inner).List tags order pageNum pageSize w).1 =
          (inner.List tags order pageNum pageSize (time.Now w).2).1 ∧
      ∃ line, ((LoggingMiddleware () inner).List tags order pageNum pageSize w).2.klog =
          (inner.List tags order pageNum pageSize (time.Now w).2).2.klog ++ [line]) ∧
    (∀ (tags : Slice String),
      ((LoggingMiddleware () inner).Count tags w).1 = (inner.Count tags (time.Now w).2).1 ∧
      ∃ line, ((LoggingMiddleware () inner).Count tags w).2.klog =
          (inner.Count tags (time.Now w).2).2.klog ++ [line]) ∧
    (∀ (id : String),
      ((LoggingMiddleware () inner).Get id w).1 = (inner.Get id (time.Now w).2).1 ∧
      ∃ line, ((LoggingMiddleware () inner).Get id w).2.klog =
          (inner.Get id (time.Now w).2).2.klog ++ [line]) ∧
    (((LoggingMiddleware () inner).Tags w).1 = (inner.Tags (time.Now w).2).1 ∧
      ∃ line, ((LoggingMiddleware () inner).Tags w).2.klog =
          (inner.Tags (time.Now w).2).2.klog ++ [line]) ∧
    (((LoggingMiddleware () inner).Health w).1 = (inner.Health (time.Now w).2).1 ∧
      ∃ line, ((LoggingMiddleware () inner).Health w).2.klog =
          (inner.Health (time.Now w).2).2.klog ++ [line]) := by
  refine ⟨?_, ?_, ?_, ?_, ?_⟩
  · intro tags order pageNum pageSize
    rw [LoggingMiddleware_List, ← advance_one_eq]
    exact ⟨logged_outcome _ _ _ w, logged_klog _ _ _ w⟩
  · intro tags
    rw [LoggingMiddleware_Count, ← advance_one_eq]
    exact ⟨logged_outcome _ _ _ w, logged_klog _ _ _ w⟩
  · intro id
    rw [LoggingMiddleware_Get, ← advance_one_eq]
    exact ⟨logged_outcome _ _ _ w, logged_klog _ _ _ w⟩
  · rw [LoggingMiddleware_Tags, ← advance_one_eq]
    exact ⟨logged_outcome _ _ _ w, logged_klog _ _ _ w⟩
  · rw [LoggingMiddleware_Health, ← advance_one_eq]
    exact ⟨logged_outcome _ _ _ w, logged_klog _ _ _ w⟩

/-- C3: when the inner call panics, the decorator method panics with the same
value (it never turns the panic into a return), and before the panic leaves it
the method writes exactly one info line after the inner call's output. The
line holds what was captured so far: the method name, the inputs, the zero
values the named results still hold (no socks, count 0, an empty sock
identifier, no tags, no health entries, a nil error) and the time elapsed
since the method was entered. -/
theorem LoggingMiddleware_propagates_panic {ε : Type} (inner : Service ε) (w : World ε) :
    (∀ (tags : Slice String) (order : String) (pageNum pageSize : Int) (p : PanicValue)
        (w1 : World ε),
      inner.List tags order pageNum pageSize (time.Now w).2 = (Outcome.panic p, w1) →
      (LoggingMiddleware () inner).List tags order pageNum pageSize w =
        (Outcome.panic p, { w1 with
          clock := w1.clock + 1,
          klog := w1.klog ++ [{ severity := Severity.info, format := none, args := [
            LogArg.str "method", LogArg.str "List",
            LogArg.str "tags", LogArg.str (strings.Join tags ", "),
            LogArg.str "order", LogArg.str order,
            LogArg.str "pageNum", LogArg.int pageNum,
            LogArg.str "pageSize", LogArg.int pageSize,
            LogArg.str "result", LogArg.int 0,
            LogArg.str "err", LogArg.err none,
            LogArg.str "took", LogArg.dur (w1.clock - w.clock)] }] })) ∧
    (∀ (tags : Slice String) (p : PanicValue) (w1 : World ε),
      inner.Count tags (time.Now w).2 = (Outcome.panic p, w1) →
      (LoggingMiddleware () inner).Count tags w =
        (Outcome.panic p, { w1 with
          clock := w1.clock + 1,
          klog := w1.klog ++ [{ severity := Severity.info, format := none, args := [
            LogArg.str "method", LogArg.str "Count",
            LogArg.str "tags", LogArg.str (strings.Join tags ", "),
            LogArg.str "result", LogArg.int 0,
            LogArg.str "err", LogArg.err none,
            LogArg.str "took", LogArg.dur (w1.clock - w.clock)] }] })) ∧
    (∀ (id : String) (p : PanicValue) (w1 : World ε),
      inner.Get id (time.Now w).2 = (Outcome.panic p, w1) →
      (LoggingMiddleware () inner).Get id w =
        (Outcome.panic p, { w1 with
          clock := w1.clock + 1,
          klog := w1.klog ++ [{ severity := Severity.info, format := none, args := [
            LogArg.str "method", LogArg.str "Get",
            LogArg.str "id", LogArg.str id,
            LogArg.str "sock", LogArg.str "",
            LogArg.str "err", LogArg.err none,
            LogArg.str "took", LogArg.dur (w1.clock - w.clock)] }] })) ∧
    (∀ (p : PanicValue) (w1 : World ε),
      inner.Tags (time.Now w).2 = (Outcome.panic p, w1) →
      (LoggingMiddleware () inner).Tags w =
        (Outcome.panic p, { w1 with
          clock := w1.clock + 1,
          klog := w1.klog ++ [{ severity := Severity.info, format := none, args := [
            LogArg.str "method", LogArg.str "Tags",
            LogArg.str "result", LogArg.int 0,
            LogArg.str "err", LogArg.err none,
            LogArg.str "took", LogArg.dur (w1.clock - w.clock)] }] })) ∧
    (∀ (p : PanicValue) (w1 : World ε),
      inner.Health (time.Now w).2 = (Outcome.panic p, w1) →
      (LoggingMiddleware () inner).Health w =
        (Outcome.panic p, { w1 with
          clock := w1.clock + 1,
          klog := w1.klog ++ [{ severity := Severity.info, format := none, args := [
            LogArg.str "method", LogArg.str "Health",
            LogArg.str "result", LogArg.int 0,
            LogArg.str "took", LogArg.dur (w1.clock - w.clock)] }] })) := by
  refine ⟨?_, ?_, ?_, ?_, ?_⟩
  · intro tags order pageNum pageSize p w1 h
    rw [← advance_one_eq] at h
    exact logged_panic _ _ _ w w1 p h
  · intro tags p w1 h
    rw [← advance_one_eq] at h
    exact logged_panic _ _ _ w w1 p h
  · intro id p w1 h
    rw [← advance_one_eq] at h
    exact logged_panic _ _ _ w w1 p h
  · intro p w1 h
    rw [← advance_one_eq] at h
    exact logged_panic _ _ _ w w1 p h
  · intro p w1 h
    rw [← advance_one_eq] at h
    exact logged_panic _ _ _ w w1 p h

/-- Witness of C3: `Get "boom"` on the sample service panics, and so does the decorated call,
after one line with an empty sock identifier and a nil error. -/
theorem LoggingMiddleware_propagates_panic_witness :
    sampleService.Get "boom" (time.Now sampleWorld).2 =
      (Outcome.panic { msg := "store gone" },
        { clock := 103, klog := [], observations := [], registry := [], ext := () }) ∧
    (LoggingMiddleware () sampleService).Get "boom" sampleWorld =
      (Outcome.panic { msg := "store gone" },
        { clock := 104,
          klog := [{ severity := Severity.info, format := none,
                     args := [LogArg.str "method", LogArg.str "Get", LogArg.str "id",
                       LogArg.str "boom", LogArg.str "sock", LogArg.str "", LogArg.str "err",
                       LogArg.err none, LogArg.str "took", LogArg.dur 3] }],
          observations := [], registry := [], ext := () }) :=
  ⟨rfl, (LoggingMiddleware_propagates_panic sampleService sampleWorld).2.2.1 "boom"
    { msg := "store gone" }
    { clock := 103, klog := [], observations := [], registry := [], ext := () } rfl⟩

/-- C4: when the inner call returns, the decorator method returns the same values
and its one info line holds, in this order: the method name, the inputs (tags
joined with ", "), a summary of the returned value (a length, the count, or the
sock's identifier, never the value itself), the returned error (absent for
`Health`) and the elapsed time. -/
theorem LoggingMiddleware_line_contents {ε : Type} (inner : Service ε) (w : World ε) :
    (∀ (tags : Slice String) (order : String) (pageNum pageSize : Int) (socks : Slice Sock)
        (err : Option GoError) (w1 : World ε),
      inner.List tags order pageNum pageSize (time.Now w).2 = (Outcome.ret (socks, err), w1) →
      (LoggingMiddleware () inner).List tags order pageNum pageSize w =
        (Outcome.ret (socks, err), { w1 with
          clock := w1.clock + 1,
          klog := w1.klog ++ [{ severity := Severity.info, format := none, args := [
            LogArg.str "method", LogArg.str "List",
            LogArg.str "tags", LogArg.str (strings.Join tags ", "),
            LogArg.str "order", LogArg.str order,
            LogArg.str "pageNum", LogArg.int pageNum,
            LogArg.str "pageSize", LogArg.int pageSize,
            LogArg.str "result", LogArg.int socks.length,
            LogArg.str "err", LogArg.err err,
            LogArg.str "took", LogArg.dur (w1.clock - w.clock)] }] })) ∧
    (∀ (tags : Slice String) (n : Int) (err : Option GoError) (w1 : World ε),
      inner.Count tags (time.Now w).2 = (Outcome.ret (n, err), w1) →
      (LoggingMiddleware () inner).Count tags w =
        (Outcome.ret (n, err), { w1 with
          clock := w1.clock + 1,
          klog := w1.klog ++ [{ severity := Severity.info, format := none, args := [
            LogArg.str "method", LogArg.str "Count",
            LogArg.str "tags", LogArg.str (strings.Join tags ", "),
            LogArg.str "result", LogArg.int n,
            LogArg.str "err", LogArg.err err,
            LogArg.str "took", LogArg.dur (w1.clock - w.clock)] }] })) ∧
    (∀ (id : String) (s : Sock) (err : Option GoError) (w1 : World ε),
      inner.Get id (time.Now w).2 = (Outcome.ret (s, err), w1) →
      (LoggingMiddleware () inner).Get id w =
        (Outcome.ret (s, err), { w1 with
          clock := w1.clock + 1,
          klog := w1.klog ++ [{ severity := Severity.info, format := none, args := [
            LogArg.str "method", LogArg.str "Get",
            LogArg.str "id", LogArg.str id,
            LogArg.str "sock", LogArg.str s.ID,
            LogArg.str "err", LogArg.err err,
            LogArg.str "took", LogArg.dur (w1.clock - w.clock)] }] })) ∧
    (∀ (tags : Slice String) (err : Option GoError) (w1 : World ε),
      inner.Tags (time.Now w).2 = (Outcome.ret (tags, err), w1) →
      (LoggingMiddleware () inner).Tags w =
        (Outcome.ret (tags, err), { w1 with
          clock := w1.clock + 1,
          klog := w1.klog ++ [{ severity := Severity.info, format := none, args := [
            LogArg.str "method", LogArg.str "Tags",
            LogArg.str "result", LogArg.int tags.length,
            LogArg.str "err", LogArg.err err,
            LogArg.str "took", LogArg.dur (w1.clock - w.clock)] }] })) ∧
    (∀ (health : Slice Health) (w1 : World ε),
      inner.Health (time.Now w).2 = (Outcome.ret health, w1) →
      (LoggingMiddleware () inner).Health w =
        (Outcome.ret health, { w1 with
          clock := w1.clock + 1,
          klog := w1.klog ++ [{ severity := Severity.info, format := none, args := [
            LogArg.str "method", LogArg.str "Health",
            LogArg.str "result", LogArg.int health.length,
            LogArg.str "took", LogArg.dur (w1.clock - w.clock)] }] })) := by
  refine ⟨?_, ?_, ?_, ?_, ?_⟩
  · intro tags order pageNum pageSize socks err w1 h
    rw [← advance_one_eq] at h
    exact logged_ret _ _ _ w w1 _ h
  · intro tags n err w1 h
    rw [← advance_one_eq] at h
    exact logged_ret _ _ _ w w1 _ h
  · intro id s err w1 h
    rw [← advance_one_eq] at h
    exact logged_ret _ _ _ w w1 _ h
  · intro tags err w1 h
    rw [← advance_one_eq] at h
    exact logged_ret _ _ _ w w1 _ h
  · intro health w1 h
    rw [← advance_one_eq] at h
    exact logged_ret _ _ _ w w1 _ h

/-- Witness of C4: a failing `List` on the sample service; the line reports no socks and the
error that is returned. -/
theorem LoggingMiddleware_line_contents_witness :
    sampleService.List ["red", "warm"] "name" 0 10 (time.Now sampleWorld).2 =
      (Outcome.ret ([], some { msg := "invalid page" }),
        { clock := 106, klog := [], observations := [], registry := [], ext := () }) ∧
    (LoggingMiddleware () sampleService).List ["red", "warm"] "name" 0 10 sampleWorld =
      (Outcome.ret ([], some { msg := "invalid page" }),
        { clock := 107,
          klog := [{ severity := Severity.info, format := none,
                     args := [LogArg.str "method", LogArg.str "List", LogArg.str "tags",
                       LogArg.str "red, warm", LogArg.str "order", LogArg.str "name",
                       LogArg.str "pageNum", LogArg.int 0, LogArg.str "pageSize", LogArg.int 10,
                       LogArg.str "result", LogArg.int 0, LogArg.str "err",
                       LogArg.err (some { msg := "invalid page" }), LogArg.str "took",
                       LogArg.dur 6] }],
          observations := [], registry := [], ext := () }) :=
  ⟨rfl, (LoggingMiddleware_line_contents sampleService sampleWorld).1 ["red", "warm"] "name" 0 10
    [] (some { msg := "invalid page" })
    { clock := 106, klog := [], observations := [], registry := [], ext := () } rfl⟩

/-- C8: `k` nested logging decorators change nothing of how the service ends and
add `k` lines per invocation, innermost decorator first. For every `k` (zero
included) and whatever the inner call, reached after the `k` readings of the
start time, yields, the `k`-fold decorated method ends the same way (same
values and error, or same panic) and the klog output is the inner call's
followed by one line per layer. The line at position `i` is that of layer `i`
counted from the inside, told apart by its elapsed time: that layer read its
start time `k - 1 - i` units after the outermost one did, and read the time
again `i` units after the inner call came back. -/
theorem LoggingMiddleware_nesting {ε : Type} (inner : Service ε) (k : Nat) (w : World ε) :
    (∀ (tags : Slice String) (order : String) (pageNum pageSize : Int)
        (outcome : Outcome (Slice Sock × Option GoError)) (w1 : World ε),
      inner.List tags order pageNum pageSize (w.advance k) = (outcome, w1) →
      (nest k inner).List tags order pageNum pageSize w =
        (outcome, { w1 with
          clock := w1.clock + k,
          klog := w1.klog ++ (List.range k).map (fun (i : Nat) =>
            infoLine (loggingMiddleware.ListArgs tags order pageNum pageSize
              (outcome.namedResults ([], none))
              (w1.clock - w.clock - k + 1 + 2 * (i : Int)))) })) ∧
    (∀ (tags : Slice String) (outcome : Outcome (Int × Option GoError)) (w1 : World ε),
      inner.Count tags (w.advance k) = (outcome, w1) →
      (nest k inner).Count tags w =
        (outcome, { w1 with
          clock := w1.clock + k,
          klog := w1.klog ++ (List.range k).map (fun (i : Nat) =>
            infoLine (loggingMiddleware.CountArgs tags (outcome.namedResults (0, none))
              (w1.clock - w.clock - k + 1 + 2 * (i : Int)))) })) ∧
    (∀ (id : String) (outcome : Outcome (Sock × Option GoError)) (w1 : World ε),
      inner.Get id (w.advance k) = (outcome, w1) →
      (nest k inner).Get id w =
        (outcome, { w1 with
          clock := w1.clock + k,
          klog := w1.klog ++ (List.range k).map (fun (i : Nat) =>
            infoLine (loggingMiddleware.GetArgs id (outcome.namedResults (Sock.zero, none))
              (w1.clock - w.clock - k + 1 + 2 * (i : Int)))) })) ∧
    (∀ (outcome : Outcome (Slice String × Option GoError)) (w1 : World ε),
      inner.Tags (w.advance k) = (outcome, w1) →
      (nest k inner).Tags w =
        (outcome, { w1 with
          clock := w1.clock + k,
          klog := w1.klog ++ (List.range k).map (fun (i : Nat) =>
            infoLine (loggingMiddleware.TagsArgs (outcome.namedResults ([], none))
              (w1.clock - w.clock - k + 1 + 2 * (i : Int)))) })) ∧
    (∀ (outcome : Outcome (Slice Health)) (w1 : World ε),
      inner.Health (w.advance k) = (outcome, w1) →
      (nest k inner).Health w =
        (outcome, { w1 with
          clock := w1.clock + k,
          klog := w1.klog ++ (List.range k).map (fun (i : Nat) =>
            infoLine (loggingMiddleware.HealthArgs (outcome.namedResults [])
              (w1.clock - w.clock - k + 1 + 2 * (i : Int)))) })) := by
  refine ⟨?_, ?_, ?_, ?_, ?_⟩
  · intro tags order pageNum pageSize outcome w1 h
    rw [nest_List]
    exact logged_iterate _ _ _ k w w1 outcome h
  · intro tags outcome w1 h
    rw [nest_Count]
    exact logged_iterate _ _ _ k w w1 outcome h
  · intro id outcome w1 h
    rw [nest_Get]
    exact logged_iterate _ _ _ k w w1 outcome h
  · intro outcome w1 h
    rw [nest_Tags]
    exact logged_iterate _ _ _ k w w1 outcome h
  · intro outcome w1 h
    rw [nest_Health]
    exact logged_iterate _ _ _ k w w1 outcome h

/-- Witness of C8: three layers around `Count` of the sample service; three lines, with
elapsed times 4, 6 and 8 from the inside out. -/
theorem LoggingMiddleware_nesting_witness :
    sampleService.Count ["red"] (sampleWorld.advance 3) =
      (Outcome.ret (1, none),
        { clock := 106, klog := [], observations := [], registry := [], ext := () }) ∧
    (nest 3 sampleService).Count ["red"] sampleWorld =
      (Outcome.ret (1, none),
        { clock := 109,
          klog := [
            infoLine [LogArg.str "method", LogArg.str "Count", LogArg.str "tags",
              LogArg.str "red", LogArg.str "result", LogArg.int 1, LogArg.str "err",
              LogArg.err none, LogArg.str "took", LogArg.dur 4],
            infoLine [LogArg.str "method", LogArg.str "Count", LogArg.str "tags",
              LogArg.str "red", LogArg.str "result", LogArg.int 1, LogArg.str "err",
              LogArg.err none, LogArg.str "took", LogArg.dur 6],
            infoLine [LogArg.str "method", LogArg.str "Count", LogArg.str "tags",
              LogArg.str "red", LogArg.str "result", LogArg.int 1, LogArg.str "err",
              LogArg.err none, LogArg.str "took", LogArg.dur 8]],
          observations := [], registry := [], ext := () }) :=
  ⟨rfl, (LoggingMiddleware_nesting sampleService 3 sampleWorld).2.1 ["red"]
    (Outcome.ret (1, none))
    { clock := 106, klog := [], observations := [], registry := [], ext := () } rfl⟩

/-- A recorded call extends the trace by its own entry. -/
theorem recorded_trace {κ ε α : Type} (c : κ) (call : Go ε α) (w : World (Slice κ × ε)) :
    (recorded c call w).2.ext.1 = w.ext.1 ++ [c] := rfl

/-- One layer leaves the collaborators' state as the call it wraps left it. -/
theorem logged_ext {ε α : Type} (zero : α) (args : α → Int → Slice LogArg) (call : Go ε α)
    (w : World ε) : (logged zero args call w).2.ext = (call (w.advance 1)).2.ext := by
  rw [logged_apply]
  split <;> rename_i h <;> simp [h]

/-- C9: a decorator method invokes the corresponding inner method once, with the
arguments it received, and invokes nothing else. Wrapped around a recording
double of any inner service, each method leaves the trace of inner invocations
longer by exactly one entry: that method with those arguments. -/
theorem LoggingMiddleware_invokes_inner_once {ε : Type} (inner : Service ε)
    (w : World (Slice Call × ε)) :
    (∀ (tags : Slice String) (order : String) (pageNum pageSize : Int),
      ((LoggingMiddleware () (recording inner)).List tags order pageNum pageSize w).2.ext.1 =
        w.ext.1 ++ [Call.List tags order pageNum pageSize]) ∧
    (∀ (tags : Slice String),
      ((LoggingMiddleware () (recording inner)).Count tags w).2.ext.1 =
        w.ext.1 ++ [Call.Count tags]) ∧
    (∀ (id : String),
      ((LoggingMiddleware () (recording inner)).Get id w).2.ext.1 = w.ext.1 ++ [Call.Get id]) ∧
    ((LoggingMiddleware () (recording inner)).Tags w).2.ext.1 = w.ext.1 ++ [Call.Tags] ∧
    ((LoggingMiddleware () (recording inner)).Health w).2.ext.1 = w.ext.1 ++ [Call.Health] := by
  refine ⟨?_, ?_, ?_, ?_, ?_⟩
  · intro tags order pageNum pageSize
    rw [LoggingMiddleware_List, logged_ext]
    exact recorded_trace _ _ _
  · intro tags
    rw [LoggingMiddleware_Count, logged_ext]
    exact recorded_trace _ _ _
  · intro id
    rw [LoggingMiddleware_Get, logged_ext]
    exact recorded_trace _ _ _
  · rw [LoggingMiddleware_Tags, logged_ext]
    exact recorded_trace _ _ _
  · rw [LoggingMiddleware_Health, logged_ext]
    exact recorded_trace _ _ _

/-! ## The response writer wrapper -/

/-- Wrapping an intermediate sum does not change the wrapped total. -/
theorem wrapInt_wrapInt_add (a b : Int) : wrapInt (wrapInt a + b) = wrapInt (a + b) := by
  unfold wrapInt
  omega

/-- An integer within the range of `int` is its own wrap-around. -/
theorem wrapInt_of_fits (x : Int) (lo : -9223372036854775808 ≤ x) (hi : x < 9223372036854775808) :
    wrapInt x = x := by
  unfold wrapInt
  omega

/-- The wrapper against the wrapped writer, from any wrapper state: same results, same
underlying state, status of the last `WriteHeader`, and size grown by the reported bytes. -/
theorem runCalls_wrapper {ω : Type} (under : ResponseWriter ω) :
    ∀ (calls : Slice WriterCall) (rw : responseWriter ω),
    (runCalls (responseWriter.asResponseWriter under) calls rw).1 = (runCalls under calls rw.w).1 ∧
    (runCalls (responseWriter.asResponseWriter under) calls rw).2.w = (runCalls under calls rw.w).2 ∧
    (runCalls (responseWriter.asResponseWriter under) calls rw).2.status =
      (headerCodes calls).getLastD rw.status ∧
    wrapInt (runCalls (responseWriter.asResponseWriter under) calls rw).2.size =
      wrapInt (rw.size + reportedBytes (runCalls under calls rw.w).1) ∧
    (wrapInt rw.size = rw.size →
      wrapInt (runCalls (responseWriter.asResponseWriter under) calls rw).2.size =
        (runCalls (responseWriter.asResponseWriter under) calls rw).2.size) := by
  intro calls
  induction calls with
  | nil =>
    intro rw
    simp [runCalls, headerCodes, reportedBytes]
  | cons c rest ih =>
    intro rw
    cases c with
    | Write b =>
      obtain ⟨h1, h2, h3, h4, h5⟩ := ih (responseWriter.Write under b rw).2
      simp only [runCalls, responseWriter.asResponseWriter, headerCodes, reportedBytes] at *
      simp only [responseWriter.Write] at *
      refine ⟨by rw [h1], h2, h3, ?_, ?_⟩
      · rw [h4, wrapInt_wrapInt_add, Int.add_assoc]
      · intro _
        apply h5
        unfold wrapInt
        omega
    | WriteHeader code =>
      obtain ⟨h1, h2, h3, h4, h5⟩ := ih (responseWriter.WriteHeader under code rw)
      simp only [runCalls, responseWriter.asResponseWriter, headerCodes, reportedBytes,
        List.getLastD_cons] at *
      simp only [responseWriter.WriteHeader] at *
      exact ⟨by rw [h1], h2, h3, h4, h5⟩

/-- C10: the wrapper forwards every call and records status and size. For any
underlying writer and any sequence of `Write` and `WriteHeader` calls made on
a wrapper created with status 200 and size 0: each call returns what the
underlying writer returns, the underlying writer ends in the state the same
calls made on it directly leave it in, the recorded status is the code of the
last `WriteHeader` call, or 200 when there was none, and the recorded size is
the sum of the byte counts the underlying writer reported, failed writes
included, added in Go `int` arithmetic: it is the integer sum wrapped to 64
bits, hence the integer sum itself whenever that fits an `int`. -/
theorem responseWriter_captures_status_and_size {ω : Type} (under : ResponseWriter ω) (w : ω)
    (calls : Slice WriterCall) :
    (runCalls (responseWriter.asResponseWriter under) calls
        { w := w, status := StatusOK, size := 0 }).1 = (runCalls under calls w).1 ∧
    (runCalls (responseWriter.asResponseWriter under) calls
        { w := w, status := StatusOK, size := 0 }).2.w = (runCalls under calls w).2 ∧
    (runCalls (responseWriter.asResponseWriter under) calls
        { w := w, status := StatusOK, size := 0 }).2.status = (headerCodes calls).getLastD 200 ∧
    (runCalls (responseWriter.asResponseWriter under) calls
        { w := w, status := StatusOK, size := 0 }).2.size =
      wrapInt (reportedBytes (runCalls under calls w).1) ∧
    (-9223372036854775808 ≤ reportedBytes (runCalls under calls w).1 ∧
        reportedBytes (runCalls under calls w).1 < 9223372036854775808 →
      (runCalls (responseWriter.asResponseWriter under) calls
          { w := w, status := StatusOK, size := 0 }).2.size =
        reportedBytes (runCalls under calls w).1) := by
  obtain ⟨h1, h2, h3, h4, h5⟩ :=
    runCalls_wrapper under calls { w := w, status := StatusOK, size := 0 }
  have h0 : wrapInt (0 : Int) = 0 := by decide
  have hsize := h5 h0
  simp only [Int.zero_add] at h4
  refine ⟨h1, h2, h3, ?_, ?_⟩
  · rw [← hsize, h4]
  · intro hfit
    rw [← hsize, h4, wrapInt_of_fits _ hfit.1 hfit.2]

/-- Witness of C10: two writes around a `WriteHeader(500)` on a writer with room for three
bytes; the second write is cut short and fails, and its one byte still counts. -/
theorem responseWriter_captures_status_and_size_witness :
    (runCalls BufferWriter.methods
        [WriterCall.Write [1, 2], WriterCall.WriteHeader 500, WriterCall.Write [1, 2, 3]]
        { body := [], status := 0, room := 3 }).1 =
      [some (2, none), none, some (1, some { msg := "short write" })] ∧
    (runCalls (responseWriter.asResponseWriter BufferWriter.methods)
        [WriterCall.Write [1, 2], WriterCall.WriteHeader 500, WriterCall.Write [1, 2, 3]]
        { w := { body := [], status := 0, room := 3 }, status := StatusOK, size := 0 }).2.size = 3 :=
  ⟨rfl, (responseWriter_captures_status_and_size BufferWriter.methods
    { body := [], status := 0, room := 3 }
    [WriterCall.Write [1, 2], WriterCall.WriteHeader 500, WriterCall.Write [1, 2, 3]]).2.2.2.2
    (by decide)⟩

/-! ## The request middleware -/

/-- What `newRequestMiddleware` returns, when it returns. -/
theorem newRequestMiddleware_ret {ε : Type} (router : Router ε) (w0 w1 : World ε)
    (m : requestMiddleware ε) (h : newRequestMiddleware router w0 = (Outcome.ret m, w1)) :
    m.router = router ∧
    m.histogram =
      { Name := "http_request_duration_seconds"
        Help := "Time (in seconds) spent serving HTTP requests."
        labelNames := ["method", "path", "status_code"] } := by
  unfold newRequestMiddleware prometheus.MustRegister at h
  simp only at h
  split at h
  · simp at h
  · simp only [Prod.mk.injEq, Outcome.ret.injEq] at h
    obtain ⟨hm, -⟩ := h
    subst hm
    exact ⟨rfl, rfl⟩

/-- The wrapped branch of `ServeHTTP` on a run on which `ServeHTTP` itself returns: the
router returned, the world is the one the router left, one clock reading later, with one
observation and one line added. -/
theorem ServeHTTP_of_returns {ε ω : Type} (net : Net) (m : requestMiddleware ε)
    (under : ResponseWriter ω) (w : ω) (r : Request) (world world1 : World ε)
    (outcome : Outcome Unit) (rw1 : responseWriter ω)
    (huri : r.RequestURI ≠ "/healthz")
    (hrouter : m.router.ServeHTTP (responseWriter ω) (responseWriter.asResponseWriter under)
      { w := w, status := StatusOK, size := 0 } r (time.Now world).2 = (outcome, rw1, world1))
    (hreturns : (m.ServeHTTP net under w r world).1 = Outcome.ret ()) :
    m.ServeHTTP net under w r world =
      (Outcome.ret (), rw1.w,
        { world1 with
          clock := world1.clock + 1,
          observations := world1.observations ++
            [{ metric := m.histogram.Name,
               labels := m.histogram.labelNames.zip
                 [r.Method,
                  match m.router.Match r with
                  | (true, some route) => route.GetPathTemplate.1
                  | _ => "",
                  strconv.Itoa rw1.status],
               latency := world1.clock - world.clock }],
          klog := world1.klog ++
            [{ severity :=
                 if rw1.status ≥ 500 then Severity.error
                 else if rw1.status ≥ 400 then Severity.warning
                 else Severity.info,
               format := some "%s %s %s %s %d %d %dms",
               args := [
                 LogArg.str (match net.SplitHostPort r.RemoteAddr with
                   | (host, _, none) => host
                   | (_, _, some _) => r.RemoteAddr),
                 LogArg.str r.Method, LogArg.str r.RequestURI, LogArg.str r.Proto,
                 LogArg.int rw1.status, LogArg.int rw1.size,
                 LogArg.int (Duration.Milliseconds (world1.clock - world.clock))] }] }) := by
  unfold requestMiddleware.ServeHTTP at hreturns ⊢
  simp only [time.Now] at hrouter
  simp only [if_neg huri, time.Now, hrouter, time.Since] at hreturns ⊢
  cases outcome with
  | panic p => simp at hreturns
  | ret u =>
    rcases hM : m.router.Match r with ⟨routeExists, route⟩
    simp only [hM] at hreturns ⊢
    cases routeExists with
    | false =>
      simp only [HistogramVec.WithLabelValuesObserve, Bool.false_eq_true, if_false] at hreturns ⊢
      by_cases hlen : [r.Method, "", strconv.Itoa rw1.status].length = m.histogram.labelNames.length
      · simp only [if_pos hlen, StatusInternalServerError, StatusBadRequest]
        split_ifs <;> simp [klog.Errorf, klog.Warningf, klog.Infof]
      · simp only [if_neg hlen] at hreturns
        simp at hreturns
    | true =>
      cases route with
      | none => simp at hreturns
      | some route =>
        simp only [HistogramVec.WithLabelValuesObserve, if_true] at hreturns ⊢
        by_cases hlen : [r.Method, route.GetPathTemplate.1, strconv.Itoa rw1.status].length =
            m.histogram.labelNames.length
        · simp only [if_pos hlen, StatusInternalServerError, StatusBadRequest]
          split_ifs <;> simp [klog.Errorf, klog.Warningf, klog.Infof]
        · simp only [if_neg hlen] at hreturns
          simp at hreturns

/-- The wrapped branch of `ServeHTTP` when the router returns and `Match` reports a match
without a route: the nil route is dereferenced, and the panic leaves `ServeHTTP` before
anything is observed or logged. -/
theorem ServeHTTP_match_without_route {ε ω : Type} (net : Net) (m : requestMiddleware ε)
    (under : ResponseWriter ω) (w : ω) (r : Request) (world world1 : World ε)
    (rw1 : responseWriter ω) (huri : r.RequestURI ≠ "/healthz")
    (hret : m.router.ServeHTTP (responseWriter ω) (responseWriter.asResponseWriter under)
      { w := w, status := StatusOK, size := 0 } r (time.Now world).2 =
        (Outcome.ret (), rw1, world1))
    (hmatch : m.router.Match r = (true, none)) :
    m.ServeHTTP net under w r world =
      (Outcome.panic nilPointerDereference, rw1.w,
        { world1 with clock := world1.clock + 1 }) := by
  unfold requestMiddleware.ServeHTTP
  simp only [time.Now] at hret
  simp only [if_neg huri, time.Now, hret, time.Since, hmatch, if_true]

/-- The wrapped branch of `ServeHTTP` returns when the router returns, the route lookup
does not report a match without a route, and the histogram has three labels. -/
theorem ServeHTTP_returns {ε ω : Type} (net : Net) (m : requestMiddleware ε)
    (under : ResponseWriter ω) (w : ω) (r : Request) (world world1 : World ε)
    (rw1 : responseWriter ω) (huri : r.RequestURI ≠ "/healthz")
    (hlabels : m.histogram.labelNames.length = 3)
    (hret : m.router.ServeHTTP (responseWriter ω) (responseWriter.asResponseWriter under)
      { w := w, status := StatusOK, size := 0 } r (time.Now world).2 =
        (Outcome.ret (), rw1, world1))
    (hmatch : m.router.Match r ≠ (true, none)) :
    (m.ServeHTTP net under w r world).1 = Outcome.ret () := by
  unfold requestMiddleware.ServeHTTP
  simp only [time.Now] at hret
  simp only [if_neg huri, time.Now, hret, time.Since]
  rcases hM : m.router.Match r with ⟨routeExists, route⟩
  rw [hM] at hmatch
  simp only [hM]
  cases routeExists with
  | false => simp [HistogramVec.WithLabelValuesObserve, hlabels]
  | true =>
    cases route with
    | none => exact absurd rfl hmatch
    | some route => simp [HistogramVec.WithLabelValuesObserve, hlabels]

/-- A request that no route serves, on the sample router with a `NotFoundHandler`: the router
answers 404 and returns, and `ServeHTTP` then panics on the nil route, with nothing
observed or logged. -/
theorem ServeHTTP_match_without_route_sample :
    requestMiddleware.ServeHTTP sampleNet
        { router := sampleRouterWithNotFoundHandler, histogram := sampleMiddleware.histogram }
        BufferWriter.methods sampleWriter (sampleRequest "/nowhere") sampleWorld =
      (Outcome.panic nilPointerDereference, { body := [63], status := 404, room := 999 },
        { clock := 2000102, klog := [], observations := [], registry := [], ext := () }) := by
  decide

/-- The wrapped branch of `ServeHTTP` when the router panics: the panic leaves `ServeHTTP`
with the world as the router left it. -/
theorem ServeHTTP_panic {ε ω : Type} (net : Net) (m : requestMiddleware ε)
    (under : ResponseWriter ω) (w : ω) (r : Request) (world world1 : World ε)
    (rw1 : responseWriter ω) (p : PanicValue)
    (huri : r.RequestURI ≠ "/healthz")
    (hpanic : m.router.ServeHTTP (responseWriter ω) (responseWriter.asResponseWriter under)
      { w := w, status := StatusOK, size := 0 } r (time.Now world).2 =
        (Outcome.panic p, rw1, world1)) :
    m.ServeHTTP net under w r world = (Outcome.panic p, rw1.w, world1) := by
  unfold requestMiddleware.ServeHTTP
  simp only [time.Now] at hpanic
  simp only [if_neg huri, time.Now, hpanic]

/-- The request target `/healthz` has the path `/healthz`. -/
theorem path_of_healthz (r : Request) (h : r.RequestURI = "/healthz") : r.path = "/healthz" := by
  unfold Request.path
  rw [h]
  decide

/-- C5, refuted as stated: a request for `/health`, and one for `/healthz` carrying a
query string, are not bypassed. On the sample router, which itself records and logs nothing
(last two parts), `ServeHTTP` answers both through the wrapper, recording one histogram
observation and writing one request line. -/
theorem health_path_not_bypassed :
    (sampleRequest "/health").path = "/health" ∧
    (sampleRequest "/healthz?probe=1").path = "/healthz" ∧
    sampleMiddleware.ServeHTTP sampleNet BufferWriter.methods sampleWriter
        (sampleRequest "/health") sampleWorld =
      (Outcome.ret (), { body := [91, 93], status := 200, room := 998 },
        { clock := 2000102,
          klog := [{ severity := Severity.info, format := some "%s %s %s %s %d %d %dms",
                     args := [LogArg.str "10.0.0.7", LogArg.str "GET", LogArg.str "/health",
                       LogArg.str "HTTP/1.1", LogArg.int 200, LogArg.int 2, LogArg.int 2] }],
          observations := [{ metric := "http_request_duration_seconds",
                             labels := [("method", "GET"), ("path", "/health"),
                               ("status_code", "200")],
                             latency := 2000001 }],
          registry := [], ext := () }) ∧
    sampleMiddleware.ServeHTTP sampleNet BufferWriter.methods sampleWriter
        (sampleRequest "/healthz?probe=1") sampleWorld =
      (Outcome.ret (), { body := [91, 93], status := 200, room := 998 },
        { clock := 2000102,
          klog := [{ severity := Severity.info, format := some "%s %s %s %s %d %d %dms",
                     args := [LogArg.str "10.0.0.7", LogArg.str "GET",
                       LogArg.str "/healthz?probe=1", LogArg.str "HTTP/1.1", LogArg.int 200,
                       LogArg.int 2, LogArg.int 2] }],
          observations := [{ metric := "http_request_duration_seconds",
                             labels := [("method", "GET"), ("path", "/healthz"),
                               ("status_code", "200")],
                             latency := 2000001 }],
          registry := [], ext := () }) ∧
    sampleMiddleware.router.ServeHTTP BufferWriter BufferWriter.methods sampleWriter
        (sampleRequest "/health") sampleWorld =
      (Outcome.ret (), { body := [91, 93], status := 200, room := 998 },
        { clock := 2000100, klog := [], observations := [], registry := [], ext := () }) ∧
    sampleMiddleware.router.ServeHTTP BufferWriter BufferWriter.methods sampleWriter
        (sampleRequest "/healthz?probe=1") sampleWorld =
      (Outcome.ret (), { body := [91, 93], status := 200, room := 998 },
        { clock := 2000100, klog := [], observations := [], registry := [], ext := () }) := by
  refine ⟨?_, ?_, ?_, ?_, ?_, ?_⟩ <;> decide

/-- C5, amended: a request whose `RequestURI` is exactly `/healthz` bypasses the wrapper.
`ServeHTTP` does nothing but hand the request and the original response writer
to the router: its outcome, the writer and the world, histogram observations
and klog lines included, are the router's own. -/
theorem healthz_bypasses_wrapper {ε ω : Type} (net : Net) (m : requestMiddleware ε)
    (under : ResponseWriter ω) (w : ω) (r : Request) (world : World ε)
    (h : r.RequestURI = "/healthz") :
    m.ServeHTTP net under w r world = m.router.ServeHTTP ω under w r world := by
  unfold requestMiddleware.ServeHTTP
  rw [if_pos h]

/-- Witness of the amended C5: `/healthz` on the sample router. -/
theorem healthz_bypasses_wrapper_witness :
    sampleMiddleware.ServeHTTP sampleNet BufferWriter.methods sampleWriter
        (sampleRequest "/healthz") sampleWorld =
      (Outcome.ret (), { body := [91, 93], status := 200, room := 998 },
        { clock := 2000100, klog := [], observations := [], registry := [], ext := () }) :=
  (healthz_bypasses_wrapper sampleNet sampleMiddleware BufferWriter.methods sampleWriter
    (sampleRequest "/healthz") sampleWorld rfl).trans (by decide)

/-- C6, refuted as stated: a request that is not a health request and on which the
router panics leaves no trace. `ServeHTTP` has no deferred call, so the panic of
the sample router on `/boom` unwinds through it: no observation is recorded and no
line is written. -/
theorem ServeHTTP_records_nothing_when_router_panics :
    (sampleRequest "/boom").path ≠ "/health" ∧
    (sampleRequest "/boom").path ≠ "/healthz" ∧
    newRequestMiddleware sampleRouter sampleWorld =
      (Outcome.ret sampleMiddleware,
        { clock := 100, klog := [], observations := [],
          registry := ["http_request_duration_seconds"], ext := () }) ∧
    sampleMiddleware.ServeHTTP sampleNet BufferWriter.methods sampleWriter
        (sampleRequest "/boom")
        { clock := 100, klog := [], observations := [],
          registry := ["http_request_duration_seconds"], ext := () } =
      (Outcome.panic { msg := "handler failed" }, { body := [], status := 0, room := 1000 },
        { clock := 101, klog := [], observations := [],
          registry := ["http_request_duration_seconds"], ext := () }) :=
  ⟨by decide, by decide, rfl, by decide⟩

/-- C6, amended: for a request that is not a health request and on which `ServeHTTP`
returns, the middleware built by `newRequestMiddleware` hands the request to the
router once (seen on a recording double of any router, whose result is named
by the second hypothesis), then records exactly one observation in
`http_request_duration_seconds`, labelled with the request method, the path
template of the matched route (the empty string when no route matches) and
the decimal captured status, and then writes exactly one klog line, whose
arguments include the captured status and size. Nothing else of the world the
router left is changed but the clock. -/
theorem ServeHTTP_records_one_observation_and_one_line {ε ω : Type} (net : Net)
    (router : Router ε) (w0 w1 : World (Slice Request × ε))
    (m : requestMiddleware (Slice Request × ε))
    (hm : newRequestMiddleware (recordingRouter router) w0 = (Outcome.ret m, w1))
    (under : ResponseWriter ω) (w : ω) (r : Request) (world : World (Slice Request × ε))
    (outcome : Outcome Unit) (rw1 : responseWriter ω) (world1 : World ε)
    (hpath : r.path ≠ "/health" ∧ r.path ≠ "/healthz")
    (hrouter : router.ServeHTTP (responseWriter ω) (responseWriter.asResponseWriter under)
      { w := w, status := StatusOK, size := 0 } r (time.Now world).2.hideTrace =
        (outcome, rw1, world1))
    (hreturns : (m.ServeHTTP net under w r world).1 = Outcome.ret ()) :
    ∃ (severity : Severity) (host : String),
      m.ServeHTTP net under w r world =
        (Outcome.ret (), rw1.w,
          { clock := world1.clock + 1,
            klog := world1.klog ++
              [{ severity := severity,
                 format := some "%s %s %s %s %d %d %dms",
                 args := [LogArg.str host, LogArg.str r.Method, LogArg.str r.RequestURI,
                   LogArg.str r.Proto, LogArg.int rw1.status, LogArg.int rw1.size,
                   LogArg.int (Duration.Milliseconds (world1.clock - world.clock))] }],
            observations := world1.observations ++
              [{ metric := "http_request_duration_seconds",
                 labels := [("method", r.Method),
                   ("path", match router.Match r with
                     | (true, some route) => route.GetPathTemplate.1
                     | _ => ""),
                   ("status_code", strconv.Itoa rw1.status)],
                 latency := world1.clock - world.clock }],
            registry := world1.registry,
            ext := (world.ext.1 ++ [r], world1.ext) }) := by
  obtain ⟨hrt, hhist⟩ := newRequestMiddleware_ret _ _ _ _ hm
  have huri : r.RequestURI ≠ "/healthz" := fun h => hpath.2 (path_of_healthz r h)
  have hrouter1 : m.router.ServeHTTP (responseWriter ω) (responseWriter.asResponseWriter under)
      { w := w, status := StatusOK, size := 0 } r (time.Now world).2 =
        (outcome, rw1, world1.withTrace (world.ext.1 ++ [r])) := by
    rw [hrt]
    simp only [recordingRouter, hrouter]
    rfl
  rw [ServeHTTP_of_returns net m under w r world _ outcome rw1 huri hrouter1 hreturns, hrt, hhist]
  exact ⟨_, _, rfl⟩

/-- Witness of the amended C6: `/catalogue/99` on the sample router, answered with 404 and one byte. -/
theorem ServeHTTP_records_one_observation_and_one_line_witness :
    ∃ (severity : Severity) (host : String),
      requestMiddleware.ServeHTTP sampleNet
          { router := recordingRouter sampleRouter, histogram := sampleMiddleware.histogram }
          BufferWriter.methods sampleWriter (sampleRequest "/catalogue/99")
          (sampleWorld.withTrace []) =
        (Outcome.ret (), { body := [63], status := 404, room := 999 },
          { clock := 2000102,
            klog := [{ severity := severity, format := some "%s %s %s %s %d %d %dms",
                       args := [LogArg.str host, LogArg.str "GET", LogArg.str "/catalogue/99",
                         LogArg.str "HTTP/1.1", LogArg.int 404, LogArg.int 1, LogArg.int 2] }],
            observations := [{ metric := "http_request_duration_seconds",
                               labels := [("method", "GET"), ("path", "/catalogue/{id}"),
                                 ("status_code", "404")],
                               latency := 2000001 }],
            registry := [],
            ext := ([sampleRequest "/catalogue/99"], ()) }) :=
  ServeHTTP_records_one_observation_and_one_line sampleNet sampleRouter
    (sampleWorld.withTrace [])
    { clock := 100, klog := [], observations := [],
      registry := ["http_request_duration_seconds"], ext := ([], ()) }
    { router := recordingRouter sampleRouter, histogram := sampleMiddleware.histogram }
    rfl BufferWriter.methods sampleWriter (sampleRequest "/catalogue/99")
    (sampleWorld.withTrace []) (Outcome.ret ())
    { w := { body := [63], status := 404, room := 999 }, status := 404, size := 1 }
    { clock := 2000101, klog := [], observations := [], registry := [], ext := () }
    (by decide) (by decide) (by decide)

/-- C7: the severity of the request line is decided by the captured status alone:
error from 500 up, warning from 400 to 499, info below 400. On every run
through the wrapper on which `ServeHTTP` returns, whatever the middleware and
the router (whose result the second hypothesis names), `ServeHTTP` writes one
line after the router's output, with the severity of the case the captured
status falls in; the three cases cover every status and exclude each other. -/
theorem ServeHTTP_severity {ε ω : Type} (net : Net) (m : requestMiddleware ε)
    (under : ResponseWriter ω) (w : ω) (r : Request) (world world1 : World ε)
    (outcome : Outcome Unit) (rw1 : responseWriter ω) (huri : r.RequestURI ≠ "/healthz")
    (hrouter : m.router.ServeHTTP (responseWriter ω) (responseWriter.asResponseWriter under)
      { w := w, status := StatusOK, size := 0 } r (time.Now world).2 = (outcome, rw1, world1))
    (hreturns : (m.ServeHTTP net under w r world).1 = Outcome.ret ()) :
    ∃ line, (m.ServeHTTP net under w r world).2.2.klog = world1.klog ++ [line] ∧
      (500 ≤ rw1.status → line.severity = Severity.error) ∧
      (400 ≤ rw1.status ∧ rw1.status < 500 → line.severity = Severity.warning) ∧
      (rw1.status < 400 → line.severity = Severity.info) := by
  rw [ServeHTTP_of_returns net m under w r world world1 outcome rw1 huri hrouter hreturns]
  refine ⟨_, rfl, ?_, ?_, ?_⟩
  · intro h
    simp only [ge_iff_le, if_pos h]
  · intro h
    have h5 : ¬ (500 ≤ rw1.status) := by omega
    simp only [ge_iff_le, if_neg h5, if_pos h.1]
  · intro h
    have h5 : ¬ (500 ≤ rw1.status) := by omega
    have h4 : ¬ (400 ≤ rw1.status) := by omega
    simp only [ge_iff_le, if_neg h5, if_neg h4]

/-- Witness of C7: the 404 answer to `/nowhere` is logged as a warning. -/
theorem ServeHTTP_severity_witness :
    ∃ line, (sampleMiddleware.ServeHTTP sampleNet BufferWriter.methods sampleWriter
          (sampleRequest "/nowhere") sampleWorld).2.2.klog = [] ++ [line] ∧
      (500 ≤ (404 : Int) → line.severity = Severity.error) ∧
      (400 ≤ (404 : Int) ∧ (404 : Int) < 500 → line.severity = Severity.warning) ∧
      ((404 : Int) < 400 → line.severity = Severity.info) :=
  ServeHTTP_severity sampleNet sampleMiddleware BufferWriter.methods sampleWriter
    (sampleRequest "/nowhere") sampleWorld
    { clock := 2000101, klog := [], observations := [], registry := [], ext := () }
    (Outcome.ret ())
    { w := { body := [63], status := 404, room := 999 }, status := 404, size := 1 }
    (by decide) (by decide) (by decide)

end Catalogue
